import Mathlib

/-!
Verification of the promise chain-link engine of `src/prop/promise.py` and
`src/prop/chain_link/fulfillment.py`: a shallow embedding of the deferred-value
outcomes, the three chain-link wrapper coroutines (fulfillment, rejection,
resolution), the cancellation-shielding discipline and the life-cycle
management guard, together with theorems checking the documented behaviour.
-/

namespace PropPromise

/-- Runtime values flowing through a promise chain. The Python code is
dynamically typed; integers and strings cover every value the design document
exercises. -/
inductive Val where
  | int (n : Int)
  | str (s : String)
  deriving DecidableEq, Repr

/-- Errors, classified by their position in the Python exception hierarchy:
`cancelledError` is the scheduler's distinguished cancellation condition
(`asyncio.CancelledError`), `exc` an instance of `Exception`, and `baseExc` a
`BaseException` that is neither an `Exception` nor the cancellation
condition. -/
inductive Err where
  | cancelledError
  | exc (name : String)
  | baseExc (name : String)
  deriving DecidableEq, Repr

/-- Terminal state of a deferred value: fulfilled with a value, rejected with
an error, or cancelled. -/
inductive Outcome where
  | fulfilled (v : Val)
  | rejected (e : Err)
  | cancelled
  deriving DecidableEq, Repr

/-- Raising error `e` out of a wrapper coroutine terminates the link's task in
this state: a raised `CancelledError` cancels the task, any other error
rejects it. -/
def raiseOutcome : Err → Outcome
  | .cancelledError => .cancelled
  | .exc n => .rejected (.exc n)
  | .baseExc n => .rejected (.baseExc n)

/-- Argument handed to `resolve_awaitable`: either a value that is not
awaitable (`ensure_future` raises `TypeError` on it) or an awaitable that
resolves to outcome `o`. -/
inductive AwaitableOr where
  | plain (v : Val)
  | awaitable (o : Outcome)
  deriving DecidableEq, Repr

/-- `resolve_awaitable` (promise.py lines 16-22): a non-awaitable argument is
returned as an already-fulfilled value; an awaitable argument is awaited and
its outcome becomes the result (its rejection or cancellation re-raises at the
await). -/
def resolve_awaitable : AwaitableOr → Outcome
  | .plain v => .fulfilled v
  | .awaitable o => o

/-- Behaviour of one user-callback invocation: the callback returns a value or
an awaitable, or it raises an error. -/
inductive CallResult where
  | returns (r : AwaitableOr)
  | raises (e : Err)
  deriving DecidableEq, Repr

/-- Outcome of evaluating `await resolve_awaitable(callback(...), loop)` for
one callback invocation: an error raised by the callback itself propagates
before `resolve_awaitable` is reached. -/
def runCallback : CallResult → Outcome
  | .returns r => resolve_awaitable r
  | .raises e => raiseOutcome e

/-- `FulfillmentPromise._wrapper` (promise.py lines 124-137):
`return await resolve_awaitable(on_fulfilled(await promise), self.loop)`.
Given the outcome the inner `await promise` resolves to, this returns the
link's outcome together with the number of `on_fulfilled` invocations: a
rejection or cancellation raised by the await propagates unchanged without
invoking the callback. -/
def FulfillmentPromise.wrapper (parent : Outcome) (on_fulfilled : Val → CallResult) :
    Outcome × Nat :=
  match parent with
  | .fulfilled v => (runCallback (on_fulfilled v), 1)
  | .rejected e => (.rejected e, 0)
  | .cancelled => (.cancelled, 0)

/-- `RejectionPromise._wrapper` (promise.py lines 149-169): the parent's value
is returned unchanged on success; `except CancelledError: raise` re-raises the
cancellation condition; `except Exception as exc` invokes `on_reject` only for
`Exception` instances, so any other `BaseException` escapes both handlers and
is re-raised unchanged. -/
def RejectionPromise.wrapper (parent : Outcome) (on_reject : Err → CallResult) :
    Outcome × Nat :=
  match parent with
  | .fulfilled v => (.fulfilled v, 0)
  | .cancelled => (.cancelled, 0)
  | .rejected (.exc n) => (runCallback (on_reject (.exc n)), 1)
  | .rejected e => (raiseOutcome e, 0)

/-- `ResolutionPromise._wrapper` (promise.py lines 184-200):
`try: return await promise` then
`finally: if not self._direct_cancellation: await resolve_awaitable(on_resolution(), self.loop)`.
`perceived` is the outcome the inner await resolved to (or raised) and `dc` is
`_direct_cancellation` at the moment the finally clause runs. Per Python
`finally` semantics an error raised by the finally clause replaces the pending
result or exception, while a finally clause that completes lets the original
outcome through; the callback's returned value is discarded. -/
def ResolutionPromise.wrapper (perceived : Outcome) (dc : Bool) (on_resolution : CallResult) :
    Outcome × Nat :=
  if dc then (perceived, 0)
  else
    match runCallback on_resolution with
    | .fulfilled _ => (perceived, 1)
    | .rejected e => (.rejected e, 1)
    | .cancelled => (.cancelled, 1)

/-- Joint state of a root promise and one `then` chain link derived from it;
`none` means the promise is still pending. `fInvocations` counts invocations
of the link's fulfillment callback. -/
structure ThenSystem where
  parentState : Option Outcome
  childState : Option Outcome
  fInvocations : Nat
  deriving DecidableEq, Repr

/-- Scheduler-visible events for the two-promise system: a `cancel()` call on
the child link, or the parent's own computation reaching its natural terminal
outcome. -/
inductive Event where
  | cancelChild
  | parentResolve (o : Outcome)
  deriving DecidableEq, Repr

/-- Initial state: both promises pending, callback never invoked. -/
def ThenSystem.init : ThenSystem := ⟨none, none, 0⟩

/-- One event step. `ChainPromise.__init__` (promise.py line 105) wraps the
parent in `shield(promise, loop=promise.loop)`, whose contract (design
document section 4.2; the base task plumbing of `src/prop/abstract/promise.py`
is not part of the sources) makes a cancellation of the chain link raise the
cancellation condition at the link's own await while leaving the parent's task
untouched. A parent resolution resumes a still-pending child, which then runs
`FulfillmentPromise._wrapper` on the parent's outcome; terminal states are
never re-entered. -/
def ThenSystem.step (f : Val → CallResult) (s : ThenSystem) : Event → ThenSystem
  | .cancelChild =>
    match s.childState with
    | some _ => s
    | none => { s with childState := some .cancelled }
  | .parentResolve o =>
    match s.parentState with
    | some _ => s
    | none =>
      match s.childState with
      | some _ => { s with parentState := some o }
      | none =>
        { parentState := some o
          childState := some (FulfillmentPromise.wrapper o f).1
          fInvocations := s.fInvocations + (FulfillmentPromise.wrapper o f).2 }

/-- Run the two-promise system over a list of events from the initial state. -/
def ThenSystem.run (f : Val → CallResult) (events : List Event) : ThenSystem :=
  events.foldl (ThenSystem.step f) ThenSystem.init

/-- Time at which the link's owner calls `cancel()` on a fulfillment link,
relative to the wrapper's suspension points. Per the design document
(section 5) cancellation is cooperative and takes effect only at the next
suspension point inside the targeted computation. -/
inductive CancelEvent where
  | never
  | atParentAwait
  | afterCallbackStart
  deriving DecidableEq, Repr

/-- Execution of promise.py's `FulfillmentPromise` (lines 124-137) under a
cancellation request. Its base `Promise.cancel`
(`src/prop/abstract/promise.py`) is not part of the sources; modelled from the
design document: the request is delivered at the wrapper's next suspension
point. After the callback has started, the only remaining suspension point is
the await inside `resolve_awaitable`, present exactly when the callback
returned an awaitable — so a request arriving after callback start cancels the
link there, and is never delivered when the callback returns a plain value. -/
def FulfillmentPromise.runWithCancel (parent : Outcome) (f : Val → CallResult)
    (c : CancelEvent) : Outcome × Nat :=
  match c with
  | .never => FulfillmentPromise.wrapper parent f
  | .atParentAwait => (.cancelled, 0)
  | .afterCallbackStart =>
    match parent with
    | .fulfilled v =>
      match f v with
      | .returns (.awaitable _) => (.cancelled, 1)
      | r => (runCallback r, 1)
    | .rejected e => (.rejected e, 0)
    | .cancelled => (.cancelled, 0)

/-- Execution of chain_link/fulfillment.py's `FulfillmentPromise`
(lines 24-48) under a cancellation request. Its base `ChainLinkPromise`
(`src/prop/chain_promise.py`) is not part of the sources; modelled from the
design document: the ordinary cancellation acceptance path is disabled once
`_waiting_chain_result` is set false, which the wrapper does right after
`await promise` returns and before invoking `on_fulfilled`, so a request
arriving after callback start is refused and the callback's completed result
is the link's outcome; `_ensure_chain` is modelled like `resolve_awaitable`. -/
def LatchedFulfillment.runWithCancel (parent : Outcome) (f : Val → CallResult)
    (c : CancelEvent) : Outcome × Nat :=
  match c with
  | .never => FulfillmentPromise.wrapper parent f
  | .atParentAwait => (.cancelled, 0)
  | .afterCallbackStart => FulfillmentPromise.wrapper parent f

/-- State relevant to `ResolutionPromise.cancel`: the `_direct_cancellation`
flag and whether the link's task is already terminal. -/
structure ResState where
  direct_cancellation : Bool
  terminal : Bool
  deriving DecidableEq, Repr

/-- `ResolutionPromise.cancel` (promise.py lines 180-182): unconditionally
sets `_direct_cancellation` before delegating to the base `cancel`. The base
`Promise.cancel` (`src/prop/abstract/promise.py`) is not part of the sources;
modelled from the design document (section 4.1): it returns whether the
request was accepted, false when the value is already terminal. -/
def ResolutionPromise.cancel (s : ResState) : ResState × Bool :=
  ({ s with direct_cancellation := true }, !s.terminal)

/-- When a cancellation request on a resolution link is delivered. The base
cancellation machinery is modelled from the design document (section 5):
cooperative, taking effect only at the next suspension point, so a request can
remain undelivered when no suspension point remains before the wrapper
completes. -/
inductive ResCancel where
  | never
  | beforeParentResolution
  | requestedNotDelivered
  deriving DecidableEq, Repr

/-- Execution of `ResolutionPromise` under a cancellation request: a request
delivered while awaiting the parent makes the shielded await raise the
cancellation condition with `_direct_cancellation` already set to true by
`ResolutionPromise.cancel`; an undelivered request still leaves
`_direct_cancellation` true by the time the finally clause runs. -/
def ResolutionPromise.run (p : Outcome) (c : ResCancel) (h : CallResult) :
    Outcome × Nat :=
  match c with
  | .never => ResolutionPromise.wrapper p false h
  | .beforeParentResolution => ResolutionPromise.wrapper .cancelled true h
  | .requestedNotDelivered => ResolutionPromise.wrapper p true h

/-- The life-cycle management flag of a promise: `Promise.__init__`
(promise.py line 40) sets `_is_managed` to the negation of the class attribute
`_warn_no_management`, which is `True` on a root `Promise` (line 31) and
`False` on every `ChainPromise` (line 100). -/
structure PromiseM where
  is_managed : Bool
  deriving DecidableEq, Repr

/-- A freshly constructed root `Promise`: `_is_managed = not True = False`. -/
def mkRoot : PromiseM := ⟨false⟩

/-- `Promise.__enter__` (promise.py lines 42-44): entering the scope marks the
value as explicitly managed. -/
def enterScope (_ : PromiseM) : PromiseM := ⟨true⟩

/-- `Promise._assert_management` (promise.py lines 49-55): a no-op on a
managed promise; otherwise it reports exactly one message through
`loop.call_exception_handler` — a diagnostic routed to the scheduler's
error-reporting channel, not a raised exception — and returns normally. The
result is the list of diagnostics emitted by the call. -/
def assert_management (p : PromiseM) : List String :=
  if p.is_managed then []
  else ["is being chained without proper life-cycle management."]

/-- `Promise.then` (promise.py lines 57-69): calls `_assert_management`, then
constructs a `FulfillmentPromise`; as a `ChainPromise` the new link has
`_warn_no_management = False`, hence `_is_managed = True` by construction.
The result pairs the new link with the diagnostics emitted by the call. -/
def thenChain (p : PromiseM) : PromiseM × List String :=
  (⟨true⟩, assert_management p)

/-- `Promise.catch` (promise.py lines 71-83): calls `_assert_management`, then
constructs a `RejectionPromise`, managed by construction. -/
def catchChain (p : PromiseM) : PromiseM × List String :=
  (⟨true⟩, assert_management p)

/-- `Promise.lastly` (promise.py lines 85-94): calls `_assert_management`,
then constructs a `ResolutionPromise`, managed by construction. -/
def lastlyChain (p : PromiseM) : PromiseM × List String :=
  (⟨true⟩, assert_management p)

/-- The callback `x => x + 1` on integers. -/
def addOne : Val → CallResult
  | .int n => .returns (.plain (.int (n + 1)))
  | v => .returns (.plain v)

/-- The callback `x => x * 2` on integers. -/
def timesTwo : Val → CallResult
  | .int n => .returns (.plain (.int (2 * n)))
  | v => .returns (.plain v)

/-- The rejection callback `e => "recovered"`. -/
def recoverCb : Err → CallResult :=
  fun _ => .returns (.plain (.str "recovered"))

/-- A fulfillment callback returning an awaitable that fulfills with 6. -/
def awaitSixCb : Val → CallResult :=
  fun _ => .returns (.awaitable (.fulfilled (.int 6)))

/-- C1: cancelling a `then` chain link while the parent is still pending never
transitions the parent's state — the parent still reaches exactly the natural
terminal outcome it reaches in a run without the cancellation — and the
fulfillment callback is never invoked. -/
theorem c1_shielding (p : Outcome) (f : Val → CallResult) :
    (ThenSystem.run f [.cancelChild, .parentResolve p]).parentState
        = (ThenSystem.run f [.parentResolve p]).parentState
    ∧ (ThenSystem.run f [.cancelChild, .parentResolve p]).parentState = some p
    ∧ (ThenSystem.run f [.cancelChild, .parentResolve p]).fInvocations = 0 :=
  ⟨rfl, rfl, rfl⟩

/-- C2: a rejection link whose parent is cancelled terminates by re-raising
the cancellation condition and its callback is never invoked, so a rejection
handler can never convert cancellation into a fulfillment. -/
theorem c2_catch_never_absorbs_cancellation (g : Err → CallResult) :
    RejectionPromise.wrapper .cancelled g = (.cancelled, 0) :=
  rfl

/-- C3: a fulfillment link invokes its callback exactly once with the parent's
value on fulfillment — a plain return value becomes the link's outcome and an
awaitable return's resolved outcome becomes the link's outcome — while a
parent rejection or cancellation propagates unchanged with the callback never
invoked; chaining `then(x => x+1).then(x => x*2)` onto a root fulfilled with 5
fulfills with 12. -/
theorem c3_then_semantics :
    (∀ v f, FulfillmentPromise.wrapper (.fulfilled v) f = (runCallback (f v), 1))
    ∧ (∀ v w, FulfillmentPromise.wrapper (.fulfilled v)
        (fun _ => .returns (.plain w)) = (.fulfilled w, 1))
    ∧ (∀ v o, FulfillmentPromise.wrapper (.fulfilled v)
        (fun _ => .returns (.awaitable o)) = (o, 1))
    ∧ (∀ e f, FulfillmentPromise.wrapper (.rejected e) f = (.rejected e, 0))
    ∧ (∀ f, FulfillmentPromise.wrapper .cancelled f = (.cancelled, 0))
    ∧ (FulfillmentPromise.wrapper
        (FulfillmentPromise.wrapper (.fulfilled (.int 5)) addOne).1 timesTwo).1
        = .fulfilled (.int 12) :=
  ⟨fun _ _ => rfl, fun _ _ => rfl, fun _ _ => rfl, fun _ _ => rfl, fun _ => rfl,
    by decide⟩

/-- C4: a rejection link's callback is invoked exactly once with the parent's
error when the parent fails with an `Exception`, and its (awaited) result is
the link's outcome — so a caught rejection becomes a fulfillment — while a
fulfilled parent's value passes through with the callback never invoked; for
any `f`, a root rejecting with error E chained as
`then(f).catch(e => "recovered")` fulfills with "recovered" and `f` is never
invoked. -/
theorem c4_catch_semantics :
    (∀ n w, RejectionPromise.wrapper (.rejected (.exc n))
        (fun _ => .returns (.plain w)) = (.fulfilled w, 1))
    ∧ (∀ n o, RejectionPromise.wrapper (.rejected (.exc n))
        (fun _ => .returns (.awaitable o)) = (o, 1))
    ∧ (∀ n g, RejectionPromise.wrapper (.rejected (.exc n)) g
        = (runCallback (g (.exc n)), 1))
    ∧ (∀ v g, RejectionPromise.wrapper (.fulfilled v) g = (.fulfilled v, 0))
    ∧ (∀ f, RejectionPromise.wrapper
        (FulfillmentPromise.wrapper (.rejected (.exc "E")) f).1 recoverCb
          = (.fulfilled (.str "recovered"), 1)
        ∧ (FulfillmentPromise.wrapper (.rejected (.exc "E")) f).2 = 0) :=
  ⟨fun _ _ => rfl, fun _ _ => rfl, fun _ _ => rfl, fun _ _ => rfl,
    fun _ => ⟨rfl, rfl⟩⟩

/-- C5: a resolution link's finalizer is invoked exactly once whenever the
link terminates through the parent's fulfillment, the parent's rejection, or
cancellation arriving indirectly from the parent — every parent outcome with
no direct cancel — and zero times when `cancel()` was called directly on the
link before parent resolution. -/
theorem c5_lastly_invocations :
    (∀ p h, (ResolutionPromise.run p .never h).2 = 1)
    ∧ (∀ p h, (ResolutionPromise.run p .beforeParentResolution h).2 = 0) := by
  constructor
  · intro p h
    show (ResolutionPromise.wrapper p false h).2 = 1
    unfold ResolutionPromise.wrapper
    cases runCallback h <;> rfl
  · intro p h
    rfl

/-- C6 counterexample: with the parent fulfilled with 1, a finalizer that
raises an error makes the resolution link reject with that error — the link
does not resolve to the parent's original outcome, so the finalizer's
behaviour can change the resolved value. -/
theorem c6_counterexample :
    ResolutionPromise.wrapper (.fulfilled (.int 1)) false (.raises (.exc "boom"))
      = (.rejected (.exc "boom"), 1)
    ∧ Outcome.rejected (.exc "boom") ≠ Outcome.fulfilled (.int 1) := by
  decide

/-- C6 amended: when the finalizer completes without raising — it returns a
plain value, or an awaitable that fulfills — the resolution link resolves to
the parent's original outcome regardless of which value the finalizer
returned; in the concrete scenario a root fulfilled with 1 chained as
`lastly(sideEffect)` still fulfills with 1 and `sideEffect` is invoked exactly
once. -/
theorem c6_lastly_passthrough (p : Outcome) (dc : Bool) (w u : Val) :
    (ResolutionPromise.wrapper p dc (.returns (.plain w))).1 = p
    ∧ (ResolutionPromise.wrapper p dc (.returns (.awaitable (.fulfilled w)))).1 = p
    ∧ ResolutionPromise.wrapper (.fulfilled (.int 1)) false (.returns (.plain u))
        = (.fulfilled (.int 1), 1) :=
  ⟨by cases dc <;> rfl, by cases dc <;> rfl, rfl⟩

/-- C7 counterexample: in promise.py's fulfillment variant a cancellation
requested after the callback has started IS honored at the await of the
callback's returned awaitable: with the parent fulfilled with 5 and a callback
returning an awaitable that fulfills with 6, the link ends cancelled instead
of completing with the callback's result. -/
theorem c7_counterexample :
    FulfillmentPromise.runWithCancel (.fulfilled (.int 5)) awaitSixCb
        .afterCallbackStart = (.cancelled, 1)
    ∧ runCallback (awaitSixCb (.int 5)) = .fulfilled (.int 6)
    ∧ Outcome.cancelled ≠ Outcome.fulfilled (.int 6) := by
  decide

/-- C7 amended: the latched fulfillment variant
(src/prop/chain_link/fulfillment.py) is non-cancellable once its callback has
started — a cancellation request arriving after callback start has no effect,
the run is identical to an uncancelled run, and the callback's completed
result is the link's outcome. -/
theorem c7_latched_noncancellable (v : Val) (f : Val → CallResult) :
    LatchedFulfillment.runWithCancel (.fulfilled v) f .afterCallbackStart
        = (runCallback (f v), 1)
    ∧ LatchedFulfillment.runWithCancel (.fulfilled v) f .afterCallbackStart
        = LatchedFulfillment.runWithCancel (.fulfilled v) f .never :=
  ⟨rfl, rfl⟩

/-- C8: chaining a promise whose `is_managed` flag is false emits exactly one
diagnostic per `then`/`catch`/`lastly` call and none when the flag is true;
every chain link produced is managed by construction, so chaining off a chain
link emits no diagnostic, while chaining a fresh unmanaged root emits exactly
one. -/
theorem c8_management_guard (p : PromiseM) :
    ((thenChain p).2.length = (if p.is_managed then 0 else 1)
      ∧ (catchChain p).2.length = (if p.is_managed then 0 else 1)
      ∧ (lastlyChain p).2.length = (if p.is_managed then 0 else 1))
    ∧ ((thenChain p).1.is_managed = true ∧ (catchChain p).1.is_managed = true
      ∧ (lastlyChain p).1.is_managed = true)
    ∧ (thenChain (thenChain p).1).2 = []
    ∧ (thenChain mkRoot).2.length = 1 := by
  obtain ⟨b⟩ := p
  cases b <;>
    simp [thenChain, catchChain, lastlyChain, assert_management, mkRoot]

/-- C9: a rejection link's callback is invoked only for `Exception` instances:
a parent failing with a `BaseException` that is neither an `Exception` nor the
cancellation condition is re-raised unchanged and the callback is never
invoked. -/
theorem c9_base_exception_passthrough (n : String) (g : Err → CallResult) :
    RejectionPromise.wrapper (.rejected (.baseExc n)) g
      = (.rejected (.baseExc n), 0) :=
  rfl

/-- C10: any `cancel()` call on a resolution link unconditionally sets the
direct-cancellation flag, whether or not the base request is accepted, and a
request whose cancellation signal is never delivered still suppresses the
finalizer entirely while the link completes with the parent's outcome. -/
theorem c10_cancel_sets_flag (s : ResState) (p : Outcome) (h : CallResult) :
    (ResolutionPromise.cancel s).1.direct_cancellation = true
    ∧ ResolutionPromise.run p .requestedNotDelivered h = (p, 0) :=
  ⟨rfl, rfl⟩

end PropPromise
